import Mathlib

/-!
Verification of the simulation-pipeline orchestrator of the `mda` repository.

The development shallowly embeds the relevant parts of the source:

* `src/md_agent/tools/gromacs_tools.py` — the command runner (`GMXResult`,
  `classify_grompp_output`, `grompp`, `run`, `wait_mdrun`);
* `src/web/backend/session_manager.py` — the process-lifecycle monitor
  (`infer_terminal_status_from_outputs`, `get_simulation_status`);
* `src/web/backend/routers/simulate.py` — the pipeline orchestrator
  (`archive_existing`, `remove_existing`, `remove_matching`,
  `is_derived_coord`, `find_source_coord`, `start_simulation`).

Modelling conventions:

* Strings are Lean `String`s; all text handled by the claims is ASCII, so the
  ASCII `Char.toLower` matches Python `str.lower` on these inputs.
* The working directory is an association list from relative path to a
  "content version" tag (`FS`); external tools are modelled as writing their
  declared output files tagged with the current run's version.
* The log-progress parser (`md_agent.utils.parsers.parse_gromacs_log_progress`)
  is not part of the sources; per the design document it is an opaque
  collaborator returning a step counter or nothing, so its result is carried
  as data (`LogFile.parsedStep`) on each modelled log file.
* Python exceptions that escape a function are modelled with `Except`; code
  paths whose exceptions are swallowed by the source (`try/except: pass`)
  are modelled by their fallback values.
-/

/-! ## String utilities (kernel-reducible replacements for Python str ops) -/

/-- `leadsWith pre l` is true iff `pre` is an initial segment of `l`. -/
def leadsWith : List Char → List Char → Bool
  | [], _ => true
  | _ :: _, [] => false
  | a :: as, b :: bs => a == b && leadsWith as bs

/-- `hasSub needle hay`: `needle` occurs contiguously inside `hay`
(Python `needle in hay`). -/
def hasSub (needle : List Char) : List Char → Bool
  | [] => leadsWith needle []
  | c :: rest => leadsWith needle (c :: rest) || hasSub needle rest

/-- Python `needle in hay` on strings. -/
def strContains (hay needle : String) : Bool :=
  hasSub needle.data hay.data

/-- Python `s.endswith(sfx)`. -/
def strEndsWith (s sfx : String) : Bool :=
  leadsWith sfx.data.reverse s.data.reverse

/-- Python `s.lower()` (ASCII, which covers every string in scope). -/
def strLower (s : String) : String :=
  String.mk (s.data.map Char.toLower)

/-- Character-list lexicographic order (Python string `<=` on ASCII). -/
def charListLe : List Char → List Char → Bool
  | [], _ => true
  | _ :: _, [] => false
  | a :: as, b :: bs => if a == b then charListLe as bs else decide (a.toNat < b.toNat)

/-- Insert into a lexicographically sorted list of names. -/
def insertName (x : String) : List String → List String
  | [] => [x]
  | y :: ys => if charListLe x.data y.data then x :: y :: ys else y :: insertName x ys

/-- Python `sorted` on a list of names. -/
def sortNames (l : List String) : List String :=
  l.foldr insertName []

/-- Split a character list on a separator character (Python `str.split(sep)`). -/
def splitOnChar (sep : Char) : List Char → List (List Char)
  | [] => [[]]
  | c :: rest =>
    match splitOnChar sep rest with
    | [] => [[c]]
    | h :: t => if c == sep then [] :: h :: t else (c :: h) :: t

/-- Final path component: Python `pathlib.Path(p).name` for relative paths. -/
def pathName (p : String) : String :=
  String.mk ((splitOnChar '/' p.data).getLastD [])

/-- Index of the last occurrence of `c` in `cs`, if any. -/
def lastIdxOf (c : Char) (cs : List Char) : Option Nat :=
  match cs.reverse.findIdx? (· == c) with
  | none => none
  | some j => some (cs.length - 1 - j)

/-- Python `pathlib.Path(name).suffix` on a bare file name: the extension from
the last dot, empty when the dot is leading or trailing or absent. -/
def pathSuffix (name : String) : String :=
  let cs := name.data
  match lastIdxOf '.' cs with
  | none => ""
  | some i => if 0 < i ∧ i < cs.length - 1 then String.mk (cs.drop i) else ""

/-- Python `pathlib.Path(name).stem` on a bare file name. -/
def pathStem (name : String) : String :=
  let base := pathName name
  String.mk (base.data.take (base.data.length - (pathSuffix base).data.length))

/-- Drop a known trailing chunk of `n` characters (Python `s[:-n]`). -/
def strDropRight (s : String) (n : Nat) : String :=
  String.mk (s.data.take (s.data.length - n))

/-! ## `md_agent/tools/gromacs_tools.py` — command runner -/

/-- `GMXResult` (gromacs_tools.py:13-31): exit code plus captured streams.
The named-output map is an association list. -/
structure GMXResult where
  returncode : Int
  stdout : String
  stderr : String
  output_files : List (String × String) := []
deriving DecidableEq

/-- `GMXResult.success` (gromacs_tools.py:20-22): exit code zero. -/
def GMXResult.success (r : GMXResult) : Bool :=
  r.returncode == 0

/-- Python `s[-4000:] if len(s) > 4000 else s` used by `to_dict`. -/
def tail4000 (s : String) : String :=
  if s.data.length > 4000 then String.mk (s.data.drop (s.data.length - 4000)) else s

/-- The dict produced by `GMXResult.to_dict` (gromacs_tools.py:24-31). -/
structure GMXDict where
  returncode : Int
  success : Bool
  stdout : String
  stderr : String
  output_files : List (String × String)
deriving DecidableEq

/-- `GMXResult.to_dict` (gromacs_tools.py:24-31). -/
def GMXResult.to_dict (r : GMXResult) : GMXDict :=
  { returncode := r.returncode
    success := r.success
    stdout := tail4000 r.stdout
    stderr := tail4000 r.stderr
    output_files := r.output_files }

/-- `GROMACSRunner._classify_grompp_output` (gromacs_tools.py:93-99):
distinguish grompp warnings (non-fatal) from embedded errors (fatal).
A zero exit with `"ERROR"` in stderr is reclassified as exit 1. -/
def classify_grompp_output (r : GMXResult) : GMXResult :=
  if r.returncode ≠ 0 then r
  else if strContains r.stderr "ERROR" then { r with returncode := 1 }
  else r

/-- `GROMACSRunner.grompp` (gromacs_tools.py:120-145), given the raw blocking
run result: classify, convert to dict, and record the tpr on success. -/
def grompp (raw : GMXResult) (output_tpr : String) : GMXDict :=
  let result := classify_grompp_output raw
  let out := result.to_dict
  if result.success then
    { out with output_files := out.output_files ++ [("tpr", output_tpr)] }
  else out

/-- Behaviour of one spawned child process, as the runner can observe it:
whether it exits before the given timeout, and its exit data. For `mdrun`
the two streams are merged, so `stdout` carries the merged stream. -/
structure ProcBehavior where
  exitsWithinTimeout : Bool
  returncode : Int
  stdout : String
  stderr : String
deriving DecidableEq

instance : DecidableEq (Except String GMXResult) := fun x y =>
  match x, y with
  | .ok a, .ok b => if h : a = b then isTrue (by rw [h]) else isFalse (by simp [h])
  | .error a, .error b => if h : a = b then isTrue (by rw [h]) else isFalse (by simp [h])
  | .ok _, .error _ => isFalse (by simp)
  | .error _, .ok _ => isFalse (by simp)

/-- Effect of a blocking call: either a returned value or an uncaught Python
exception (`Except.error` names the exception), plus whether the runner
killed the child process. -/
structure BlockingEffect where
  result : Except String GMXResult
  killedProcess : Bool
deriving DecidableEq

/-- `GROMACSRunner._run` (gromacs_tools.py:74-91): blocking invocation.
`proc.communicate(input=…, timeout=timeout)` raises `subprocess.TimeoutExpired`
when the child has not exited within the timeout; `_run` has no handler for
it and does not kill the child, so the exception propagates. -/
def GROMACSRunner.run (p : ProcBehavior) (timeout : Option Nat) : BlockingEffect :=
  match timeout with
  | none =>
    { result := .ok ⟨p.returncode, p.stdout, p.stderr, []⟩, killedProcess := false }
  | some _ =>
    if p.exitsWithinTimeout then
      { result := .ok ⟨p.returncode, p.stdout, p.stderr, []⟩, killedProcess := false }
    else
      { result := .error "subprocess.TimeoutExpired", killedProcess := false }

/-- The dict returned by `wait_mdrun`; absent keys are `none`. -/
structure WaitResult where
  returncode : Option Int
  success : Option Bool
  stdout : Option String
  error : Option String
deriving DecidableEq

/-- Effect of `wait_mdrun`: its returned dict plus whether it killed the
child. It catches `TimeoutExpired`, so no exception escapes. -/
structure WaitEffect where
  result : WaitResult
  killedProcess : Bool
deriving DecidableEq

/-- `GROMACSRunner.wait_mdrun` (gromacs_tools.py:199-214): block on the active
non-blocking mdrun. On timeout it kills the process and returns a
returncode -1 failure dict instead of raising. -/
def wait_mdrun (proc : Option ProcBehavior) (timeout : Option Nat) : WaitEffect :=
  match proc with
  | none =>
    { result := { returncode := none, success := none, stdout := none,
                  error := some "No mdrun process is running" }
      killedProcess := false }
  | some p =>
    if timeout.isNone || p.exitsWithinTimeout then
      { result := { returncode := some p.returncode
                    success := some (p.returncode == 0)
                    stdout := some (tail4000 p.stdout)
                    error := none }
        killedProcess := false }
    else
      { result := { returncode := some (-1), success := none, stdout := none,
                    error := some "mdrun timed out and was killed" }
        killedProcess := true }

/-! ## `web/backend/session_manager.py` — process-lifecycle monitor -/

/-- One on-disk log file as the monitor can observe it: its modification
time, whether reading it succeeds, the trailing 64 KiB window `_tail_text`
would read, and the opaque log-progress parser's step counter for it. -/
structure LogFile where
  mtime : Int
  readable : Bool
  tailText : String
  parsedStep : Option Nat
deriving DecidableEq

/-- The on-disk state, keyed by path relative to the working directory. -/
abbrev Disk := List (String × LogFile)

def lookupLog (disk : Disk) (path : String) : Option LogFile :=
  (disk.find? (fun e => e.1 == path)).map (fun e => e.2)

/-- `_tail_text` (session_manager.py:120-129): the trailing window of the
file, or `""` when the read raises (the handler swallows the exception). -/
def tail_text (lg : LogFile) : String :=
  if lg.readable then lg.tailText else ""

/-- `session.sim_status` as the monitor reads it: whether the
`expected_nsteps` key is present and its value, `started_at` (0 when unset,
per `float(… or 0.0)`), and the recorded output-file path stub. -/
structure SimMeta where
  hasKeyExpected : Bool
  expected_nsteps : Option Nat
  started_at : Int
  output_pfx : Option String
deriving DecidableEq

/-- `sim_meta.get("expected_nsteps")` after the `int(…)` conversion with its
exception swallowed: the stored value when the key is present, else `None`. -/
def SimMeta.expectedVal (m : SimMeta) : Option Nat :=
  if m.hasKeyExpected then m.expected_nsteps else none

inductive Status
  | standby
  | running
  | finished
  | failed
deriving DecidableEq

/-- A `subprocess.Popen` handle: pid and `poll()` result (`none` = alive). -/
structure Proc where
  pid : Nat
  poll : Option Int
deriving DecidableEq

/-- The state `get_simulation_status` reads: registry membership, the
runner attribute, its `_mdrun_proc`, `session.sim_status`, the config's
`method.nsteps`, and the on-disk logs. -/
structure SessionState where
  inRegistry : Bool
  runnerPresent : Bool
  mdrun_proc : Option Proc
  sim : SimMeta
  cfg_nsteps : Option Nat
  disk : Disk
deriving DecidableEq

/-- `log_candidates` (session_manager.py:174-178). -/
def logCandidates (m : SimMeta) : List String :=
  let pfx := m.output_pfx.getD "simulation/md"
  [pfx ++ ".log", "simulation/md.log", "md.log"]

/-- The fatal-marker test on a log's tail (session_manager.py:189-191). -/
def fatalIn (lg : LogFile) : Bool :=
  let tail := strLower (tail_text lg)
  strContains tail "fatal error" || strContains tail "segmentation fault"

/-- The stale-log guard (session_manager.py:183-187): skip a log whose
modification time predates a recorded (positive) launch timestamp. -/
def staleSkip (started_at : Int) (lg : LogFile) : Bool :=
  decide (started_at > 0) && decide (lg.mtime < started_at)

/-- The step-completion test (session_manager.py:193-195). -/
def stepReached (expected : Option Nat) (lg : LogFile) : Bool :=
  match expected, lg.parsedStep with
  | some n, some s => decide (s ≥ n)
  | _, _ => false

/-- The candidate loop of `_infer_terminal_status_from_outputs`
(session_manager.py:180-197), returning the status with its
`detected_by` tag. -/
def inferFromCandidates (started_at : Int) (expected : Option Nat) (disk : Disk) :
    List String → Option (Status × String)
  | [] => none
  | p :: rest =>
    match lookupLog disk p with
    | none => inferFromCandidates started_at expected disk rest
    | some lg =>
      if staleSkip started_at lg then inferFromCandidates started_at expected disk rest
      else if fatalIn lg then some (.failed, "log_error")
      else if stepReached expected lg then some (.finished, "step_reached")
      else inferFromCandidates started_at expected disk rest

/-- `_infer_terminal_status_from_outputs` (session_manager.py:162-197). -/
def infer_terminal_status_from_outputs (sim : SimMeta) (disk : Disk) :
    Option (Status × String) :=
  inferFromCandidates sim.started_at sim.expectedVal disk (logCandidates sim)

/-- The dict returned by the status query (absent keys are `none`). -/
structure StatusResult where
  running : Bool
  status : Status
  detected_by : Option String := none
  pid : Option Nat := none
  exit_code : Option Int := none
deriving DecidableEq

/-- session_manager.py:210-217: when `sim_status` lacks the
`expected_nsteps` key, copy `method.nsteps` from the config into it
(only when that value is not `None`). -/
def injectExpected (s : SessionState) : SessionState :=
  if s.sim.hasKeyExpected then s
  else
    match s.cfg_nsteps with
    | some n =>
      { s with sim := { s.sim with hasKeyExpected := true, expected_nsteps := some n } }
    | none => s

/-- `get_simulation_status` (session_manager.py:200-255). Returns the
status dict together with the session state it leaves behind (the
injected `expected_nsteps` key and the cleared `_mdrun_proc` handle;
`runner._cleanup()` on the inferred-terminal path also clears the handle). -/
def get_simulation_status (s : SessionState) : StatusResult × SessionState :=
  if !s.inRegistry then ({ running := false, status := .standby }, s)
  else
    let s1 := injectExpected s
    if s.runnerPresent then
      match infer_terminal_status_from_outputs s1.sim s1.disk with
      | some (st, det) =>
        ({ running := false, status := st, detected_by := some det,
           pid := s1.mdrun_proc.map Proc.pid },
         { s1 with mdrun_proc := none })
      | none =>
        match s1.mdrun_proc with
        | none => ({ running := false, status := .standby }, s1)
        | some p =>
          match p.poll with
          | none => ({ running := true, status := .running, pid := some p.pid }, s1)
          | some rc =>
            ({ running := false, status := if rc == 0 then .finished else .failed,
               pid := some p.pid, exit_code := some rc },
             { s1 with mdrun_proc := none })
    else ({ running := false, status := .standby }, s1)

/-! ## `web/backend/routers/simulate.py` — pipeline orchestrator -/

/-- `_COORD_EXTS` (simulate.py:17). -/
def coordExts : List String := [".gro", ".pdb"]

/-- The derived-suffix taxonomy used by `_find_source_coord`
(simulate.py:86). -/
def derivedSuffixes : List String :=
  ["_system.gro", "_box.gro", "_solvated.gro", "_ionized.gro"]

/-- `_is_derived_coord` (simulate.py:66-74). -/
def is_derived_coord (name : String) : Bool :=
  let n := strLower (pathName name)
  strEndsWith n "_system.gro" || strEndsWith n "_box.gro" ||
  strEndsWith n "_solvated.gro" || strEndsWith n "_ionized.gro" ||
  n == "system.gro" || n == "box.gro" || n == "solvated.gro" || n == "ionized.gro"

/-- The fallback scan of `_find_source_coord` (simulate.py:95-103): first
file, in sorted order, with a coordinate extension and a non-derived name.
`files` holds the names of the regular files in the working directory
(subdirectories, which the source skips via `f.is_file()`, are not listed). -/
def scanSourceCoord (files : List String) : Option String :=
  (sortNames files).find? (fun f =>
    coordExts.contains (strLower (pathSuffix f)) && !(is_derived_coord f))

/-- The recovery branch of `_find_source_coord` (simulate.py:82-94): strip
the first matching derived suffix and look for the root's `.pdb` (preferred)
or `.gro` source. -/
def recoverFromDerived (files : List String) (n : String) : Option String :=
  match derivedSuffixes.find? (fun sfx => strEndsWith (strLower n) sfx) with
  | none => none
  | some sfx =>
    let root := strDropRight n sfx.data.length
    let candPdb := root ++ ".pdb"
    let candGro := root ++ ".gro"
    if files.contains candPdb && !(is_derived_coord candPdb) then some candPdb
    else if files.contains candGro && !(is_derived_coord candGro) then some candGro
    else none

/-- `_find_source_coord` (simulate.py:77-103). -/
def find_source_coord (files : List String) (preferred : String) : Option String :=
  let prefName := if preferred == "" then "" else pathName preferred
  if prefName != "" && files.contains prefName && !(is_derived_coord prefName) then
    some prefName
  else
    let recovered :=
      if prefName != "" && is_derived_coord prefName then recoverFromDerived files prefName
      else none
    match recovered with
    | some c => some c
    | none => scanSourceCoord files

/-- The working directory: association list from relative path to a content
version tag (which run last wrote the file). -/
abbrev FS := List (String × Nat)

def fsExists (fs : FS) (p : String) : Bool :=
  fs.any (fun e => e.1 == p)

def fsRemove (fs : FS) (p : String) : FS :=
  fs.filter (fun e => e.1 != p)

/-- An external tool writing its declared output file (overwriting). -/
def fsWrite (fs : FS) (p : String) (v : Nat) : FS :=
  fsRemove fs p ++ [(p, v)]

def isTopLevel (p : String) : Bool :=
  !(p.data.contains '/')

/-- `sorted(work_dir.iterdir())` restricted to regular files. -/
def topLevelNames (fs : FS) : List String :=
  sortNames ((fs.map (fun e => e.1)).filter isTopLevel)

/-- Python `s[n:]`. -/
def strDropLeft (s : String) (n : Nat) : String :=
  String.mk (s.data.drop n)

/-- `_archive_existing` (simulate.py:41-43): "Archiving disabled by request."
The body is `return None`; nothing is moved into the archive area. -/
def archive_existing (fs : FS) (pats : List String) : FS :=
  let _ := pats
  fs

/-- `_remove_existing` (simulate.py:46-54): best-effort deletion of the
named files in the working directory. -/
def remove_existing (fs : FS) (names : List String) : FS :=
  names.foldl fsRemove fs

/-- `_remove_matching` (simulate.py:106-113) for the patterns the pipeline
passes, all of the form `*<tail>`: delete every top-level file whose name
ends with the pattern's tail. -/
def remove_matching (fs : FS) (pats : List String) : FS :=
  fs.filter (fun e =>
    !(isTopLevel e.1 && pats.any (fun pat => strEndsWith e.1 (strDropLeft pat 1))))

/-- The configuration fields `start_simulation` reads and writes. Fields
with no bearing on the modelled behaviour (box clearance, index file,
step count) are omitted. -/
structure PipeConfig where
  forcefield : String
  water_model : String
  coordinates : String
deriving DecidableEq

/-- Result of one blocking `run_gmx_command` call: exit code and stderr. -/
structure ToolRun where
  returncode : Int
  stderr : String
deriving DecidableEq

/-- The behaviour of the external tools during one pipeline invocation:
what each call site's subprocess would report. `pdb2gmx2` is the result of
the fallback retry, the grompp entries feed `grompp` from the runner. -/
structure ToolBehavior where
  pdb2gmx1 : ToolRun
  pdb2gmx2 : ToolRun
  editconf : ToolRun
  solvate : ToolRun
  grompp_ions : GMXResult
  genion : ToolRun
  grompp_prod : GMXResult
deriving DecidableEq

/-- One external tool invocation, as recorded in the pipeline trace. -/
inductive StageCall
  | pdb2gmx (ff : String)
  | editconf (bt : String)
  | solvate
  | grompp_ions
  | genion
  | grompp_prod
  | mdrun_launch
deriving DecidableEq

def StageCall.isPdb2gmx : StageCall → Bool
  | .pdb2gmx _ => true
  | _ => false

inductive PipeResult
  | ok
  | error (stage : String)
deriving DecidableEq

/-- Outcome of a pipeline invocation: the ordered trace of tool calls, the
result (`error` names the failing step, mirroring the HTTPException site),
the final working directory and the final configuration. -/
structure PipeOutcome where
  trace : List StageCall
  result : PipeResult
  fs : FS
  cfg : PipeConfig
deriving DecidableEq

/-- The residue-not-found diagnostic tested at simulate.py:185. -/
def residueDiag : String := "not found in residue topology database"

/-- The default/fallback force field (simulate.py:144,185-190). -/
def fallbackFF : String := "amber99sb-ildn"

/-- The retry condition of Step A (simulate.py:183-185): first attempt
failed, stderr carries the residue diagnostic, configured force field is
not the default. -/
def retryCond (cfg : PipeConfig) (r1 : ToolRun) : Bool :=
  r1.returncode != 0 && strContains r1.stderr residueDiag && cfg.forcefield != fallbackFF

/-- Outputs a successful `pdb2gmx` writes (its `-o`/`-p` targets,
simulate.py:175). -/
def writePdb2gmxOutputs (fs : FS) (system_gro : String) (v : Nat) : FS :=
  fsWrite (fsWrite fs system_gro v) "topol.top" v

structure StepAOut where
  trace : List StageCall
  ok : Bool
  fs : FS
  cfg : PipeConfig
deriving DecidableEq

/-- Step A — topology generation (simulate.py:164-194): archive (a no-op),
remove prior outputs and stale prefixed intermediates, run pdb2gmx, retry
once with the fallback force field on the residue diagnostic, record the
substitution on fallback success. -/
def stepA (cfg : PipeConfig) (fs0 : FS) (tools : ToolBehavior) (v : Nat)
    (system_gro : String) : StepAOut :=
  let fs := remove_matching
    (remove_existing
      (archive_existing fs0 [system_gro, "topol.top", "posre*.itp", "mdout.mdp"])
      [system_gro, "topol.top", "mdout.mdp"])
    ["*_system.gro", "*_box.gro", "*_solvated.gro", "*_ionized.gro"]
  let r1 := tools.pdb2gmx1
  if retryCond cfg r1 then
    let r2 := tools.pdb2gmx2
    if r2.returncode == 0 then
      { trace := [.pdb2gmx cfg.forcefield, .pdb2gmx fallbackFF]
        ok := true
        fs := writePdb2gmxOutputs fs system_gro v
        cfg := { cfg with forcefield := fallbackFF } }
    else
      { trace := [.pdb2gmx cfg.forcefield, .pdb2gmx fallbackFF]
        ok := false, fs := fs, cfg := cfg }
  else if r1.returncode == 0 then
    { trace := [.pdb2gmx cfg.forcefield], ok := true
      fs := writePdb2gmxOutputs fs system_gro v, cfg := cfg }
  else
    { trace := [.pdb2gmx cfg.forcefield], ok := false, fs := fs, cfg := cfg }

structure RestOut where
  trace : List StageCall
  result : PipeResult
  fs : FS
  cfg : PipeConfig
deriving DecidableEq

/-- Outputs a successful grompp writes: the tpr and `mdout.mdp`. -/
def writeGromppOutputs (fs : FS) (tpr : String) (v : Nat) : FS :=
  fsWrite (fsWrite fs tpr v) "mdout.mdp" v

/-- Steps C and D (simulate.py:268-307): archive previous run input (a
no-op), production grompp, then the non-blocking mdrun launch (which
creates `simulation/` and writes its outputs only as the job progresses). -/
def stepCD (cfg : PipeConfig) (fs0 : FS) (tools : ToolBehavior) (v : Nat) : RestOut :=
  let fs := archive_existing fs0 ["md.tpr", "mdout.mdp"]
  if !(grompp tools.grompp_prod "md.tpr").success then
    { trace := [.grompp_prod], result := .error "grompp", fs := fs, cfg := cfg }
  else
    { trace := [.grompp_prod, .mdrun_launch], result := .ok
      fs := writeGromppOutputs fs "md.tpr" v, cfg := cfg }

/-- Step B — solvation branch (simulate.py:196-266) followed by Steps C-D.
Solvated (`water_model != "none"`): require the Step-A output, delete prior
branch outputs (archiving is a no-op), then editconf → solvate →
grompp(ions) → genion, recording the ionized file in the configuration.
Vacuum: delete the prior box and run editconf with a cubic cell. -/
def stepBCD (cfg : PipeConfig) (fs0 : FS) (tools : ToolBehavior) (v : Nat)
    (system_gro box_gro solvated_gro ionized_gro : String) : RestOut :=
  if cfg.water_model != "none" then
    if !(fsExists fs0 system_gro) then
      { trace := [], result := .error "system_gro_missing", fs := fs0, cfg := cfg }
    else
      let fs1 := remove_existing
        (archive_existing fs0 [ionized_gro, solvated_gro, box_gro, "ions.tpr"])
        [ionized_gro, solvated_gro, box_gro, "ions.tpr", "mdout.mdp"]
      if tools.editconf.returncode != 0 then
        { trace := [.editconf "dodecahedron"], result := .error "editconf"
          fs := fs1, cfg := cfg }
      else
        let fs2 := fsWrite fs1 box_gro v
        if tools.solvate.returncode != 0 then
          { trace := [.editconf "dodecahedron", .solvate], result := .error "solvate"
            fs := fs2, cfg := cfg }
        else
          let fs3 := fsWrite (fsWrite fs2 solvated_gro v) "topol.top" v
          if !(grompp tools.grompp_ions "ions.tpr").success then
            { trace := [.editconf "dodecahedron", .solvate, .grompp_ions]
              result := .error "grompp_ions", fs := fs3, cfg := cfg }
          else
            let fs4 := writeGromppOutputs fs3 "ions.tpr" v
            if tools.genion.returncode != 0 then
              { trace := [.editconf "dodecahedron", .solvate, .grompp_ions, .genion]
                result := .error "genion", fs := fs4, cfg := cfg }
            else
              let fs5 := fsWrite (fsWrite fs4 ionized_gro v) "topol.top" v
              let cfg1 := { cfg with coordinates := ionized_gro }
              let rest := stepCD cfg1 fs5 tools v
              { trace := [.editconf "dodecahedron", .solvate, .grompp_ions, .genion]
                  ++ rest.trace
                result := rest.result, fs := rest.fs, cfg := rest.cfg }
  else
    let fs1 := remove_existing (archive_existing fs0 [box_gro]) [box_gro]
    if tools.editconf.returncode != 0 then
      { trace := [.editconf "cubic"], result := .error "editconf_vacuum"
        fs := fs1, cfg := cfg }
    else
      let rest := stepCD cfg (fsWrite fs1 box_gro v) tools v
      { trace := [.editconf "cubic"] ++ rest.trace
        result := rest.result, fs := rest.fs, cfg := rest.cfg }

/-- The coordinate-file resolution at the head of `start_simulation`
(simulate.py:148-155): generate `md.mdp`, then find the raw input. -/
def pipelineInput (cfg : PipeConfig) (fs : FS) (v : Nat) : Option String :=
  find_source_coord (topLevelNames (fsWrite fs "md.mdp" v)) cfg.coordinates

/-- `start_simulation` (simulate.py:116-307): one full pipeline invocation.
`v` tags the content written by this run's tools, so reruns are
distinguishable. Stage calls that only read the configuration (mdp
generation) and the sim-status bookkeeping of Step D are not modelled. -/
def start_simulation (cfg0 : PipeConfig) (fs0 : FS) (tools : ToolBehavior)
    (v : Nat) : PipeOutcome :=
  let fs1 := fsWrite fs0 "md.mdp" v
  match find_source_coord (topLevelNames fs1) cfg0.coordinates with
  | none => { trace := [], result := .error "no_coordinate_file", fs := fs1, cfg := cfg0 }
  | some input_coord =>
    let stem := pathStem input_coord
    let system_gro := stem ++ "_system.gro"
    let box_gro := stem ++ "_box.gro"
    let solvated_gro := stem ++ "_solvated.gro"
    let ionized_gro := stem ++ "_ionized.gro"
    let a := stepA cfg0 fs1 tools v system_gro
    if a.ok then
      let rest := stepBCD a.cfg a.fs tools v system_gro box_gro solvated_gro ionized_gro
      { trace := a.trace ++ rest.trace, result := rest.result
        fs := rest.fs, cfg := rest.cfg }
    else
      { trace := a.trace, result := .error "pdb2gmx", fs := a.fs, cfg := a.cfg }

/-! ## Auxiliary definitions used by the theorem statements -/

/-- A candidate log path is harmless for the fatal check: absent, skipped as
stale, or free of fatal markers in its tail. -/
def eligNoFatal (started : Int) (disk : Disk) (p : String) : Bool :=
  match lookupLog disk p with
  | none => true
  | some lg => staleSkip started lg || !(fatalIn lg)

/-- A candidate log path witnesses step completion: present, not skipped as
stale, with parsed step counter at least `n`. -/
def stepHit (started : Int) (n : Nat) (disk : Disk) (p : String) : Bool :=
  match lookupLog disk p with
  | none => false
  | some lg => !(staleSkip started lg) && stepReached (some n) lg

/-- Every fatal marker on a candidate log path is stale: the log is absent,
marker-free, or modified strictly before `started`. -/
def fatalOnlyStale (started : Int) (disk : Disk) (p : String) : Bool :=
  match lookupLog disk p with
  | none => true
  | some lg => !(fatalIn lg) || decide (lg.mtime < started)

/-- Content-version tag of a file in the working directory, if present. -/
def fsVersion (fs : FS) (p : String) : Option Nat :=
  (fs.find? (fun e => e.1 == p)).map (fun e => e.2)

/-- The `.pdb` source candidate that `_find_source_coord`'s recovery branch
derives from a (derived) basename: strip the first matching derived suffix
and append `.pdb`. -/
def derivedRootPdb (pn : String) : Option String :=
  match derivedSuffixes.find? (fun sfx => strEndsWith (strLower pn) sfx) with
  | none => none
  | some sfx => some (strDropRight pn sfx.data.length ++ ".pdb")

/-- The `.gro` source candidate that `_find_source_coord`'s recovery branch
falls back to when the root's `.pdb` is unavailable. -/
def derivedRootGro (pn : String) : Option String :=
  match derivedSuffixes.find? (fun sfx => strEndsWith (strLower pn) sfx) with
  | none => none
  | some sfx => some (strDropRight pn sfx.data.length ++ ".gro")

/-- The recovery branch's preferred candidate is taken: the root's `.pdb`
exists in the directory and is not itself a derived coordinate. -/
def pdbCandTaken (files : List String) (pn : String) : Bool :=
  match derivedRootPdb pn with
  | none => false
  | some cp => files.contains cp && !(is_derived_coord cp)

/-! ## Concrete scenarios referenced by witnesses and counterexamples -/

/-- Tool behaviour where every external invocation succeeds. -/
def allOkTools : ToolBehavior :=
  { pdb2gmx1 := { returncode := 0, stderr := "" }
    pdb2gmx2 := { returncode := 0, stderr := "" }
    editconf := { returncode := 0, stderr := "" }
    solvate := { returncode := 0, stderr := "" }
    grompp_ions := { returncode := 0, stdout := "", stderr := "" }
    genion := { returncode := 0, stderr := "" }
    grompp_prod := { returncode := 0, stdout := "", stderr := "" } }

/-- A solvated configuration with no recorded coordinate preference. -/
def solvatedCfg : PipeConfig :=
  { forcefield := "amber99sb-ildn", water_model := "tip3p", coordinates := "" }

/-- First solvated pipeline run on a fresh directory holding only `x.pdb`. -/
def solvatedRun1 : PipeOutcome :=
  start_simulation solvatedCfg [("x.pdb", 0)] allOkTools 1

/-- Second, unchanged solvated run on the directory the first run left. -/
def solvatedRun2 : PipeOutcome :=
  start_simulation solvatedRun1.cfg solvatedRun1.fs allOkTools 2

/-- A session whose mdrun process has exited with code 1 and whose disk
carries no logs. -/
def c2CexState : SessionState :=
  { inRegistry := true, runnerPresent := true,
    mdrun_proc := some { pid := 4242, poll := some 1 },
    sim := { hasKeyExpected := true, expected_nsteps := none, started_at := 0,
             output_pfx := none },
    cfg_nsteps := none, disk := [] }

/-- A session with no process handle whose log shows a fatal marker. -/
def c2WitnessState : SessionState :=
  { inRegistry := true, runnerPresent := true, mdrun_proc := none,
    sim := { hasKeyExpected := true, expected_nsteps := none, started_at := 0,
             output_pfx := none },
    cfg_nsteps := none,
    disk := [("md.log",
      { mtime := 3, readable := true, tailText := "Fatal error: bad water model",
        parsedStep := none })] }

/-- A session with a live process whose fresh log has both reached the
expected step count and recorded a fatal marker. -/
def c3CexState : SessionState :=
  { inRegistry := true, runnerPresent := true,
    mdrun_proc := some { pid := 7, poll := none },
    sim := { hasKeyExpected := true, expected_nsteps := some 100, started_at := 5,
             output_pfx := none },
    cfg_nsteps := none,
    disk := [("simulation/md.log",
      { mtime := 10, readable := true,
        tailText := "step 100\nFatal error: water molecule could not be settled",
        parsedStep := some 100 })] }

/-- A session with a live process whose clean, fresh log has reached the
expected step count. -/
def c3WitnessState : SessionState :=
  { inRegistry := true, runnerPresent := true,
    mdrun_proc := some { pid := 3, poll := none },
    sim := { hasKeyExpected := true, expected_nsteps := some 5, started_at := 5,
             output_pfx := none },
    cfg_nsteps := none,
    disk := [("simulation/md.log",
      { mtime := 10, readable := true, tailText := "Writing checkpoint, step 5",
        parsedStep := some 5 })] }

/-- A session with a live process and no log file on disk at all. -/
def c9CexState : SessionState :=
  { inRegistry := true, runnerPresent := true,
    mdrun_proc := some { pid := 9, poll := none },
    sim := { hasKeyExpected := true, expected_nsteps := none, started_at := 0,
             output_pfx := none },
    cfg_nsteps := none, disk := [] }

/-- A session id that is absent from the registry. -/
def c9WitnessState : SessionState :=
  { inRegistry := false, runnerPresent := false, mdrun_proc := none,
    sim := { hasKeyExpected := false, expected_nsteps := none, started_at := 0,
             output_pfx := none },
    cfg_nsteps := none, disk := [] }

/-- A configuration with a non-default force field, vacuum water model. -/
def c7Cfg : PipeConfig :=
  { forcefield := "charmm27", water_model := "none", coordinates := "" }

/-- A working directory holding only the uploaded `y.pdb`. -/
def c7Fs : FS := [("y.pdb", 0)]

/-- Tool behaviour where the first pdb2gmx attempt fails with the
residue-not-found diagnostic and everything else succeeds. -/
def c7Tools : ToolBehavior :=
  { pdb2gmx1 := { returncode := 1,
                  stderr := "Residue SEP not found in residue topology database" }
    pdb2gmx2 := { returncode := 0, stderr := "" }
    editconf := { returncode := 0, stderr := "" }
    solvate := { returncode := 0, stderr := "" }
    grompp_ions := { returncode := 0, stdout := "", stderr := "" }
    genion := { returncode := 0, stderr := "" }
    grompp_prod := { returncode := 0, stdout := "", stderr := "" } }

/-! ## Helper lemmas -/

theorem bool_not_true {b : Bool} (h : (!b) = true) : b = false := by
  cases b
  · rfl
  · exact absurd h (by decide)

theorem bool_and_right {a b : Bool} (h : (a && b) = true) : b = true := by
  cases a <;> cases b <;> first | rfl | exact absurd h (by decide)

/-! ## Claim C4 — grompp success criterion -/

/-- C4 (confirmed): for the preparation-compile tool grompp, the reported
success is true iff the raw exit code is zero and no embedded fatal-error
marker (`"ERROR"`) occurs in the captured stderr. -/
theorem grompp_success_iff (raw : GMXResult) (tpr : String) :
    (grompp raw tpr).success = true ↔
      raw.returncode = 0 ∧ strContains raw.stderr "ERROR" = false := by
  unfold grompp classify_grompp_output GMXResult.to_dict GMXResult.success
  by_cases h : raw.returncode = 0 <;>
    by_cases he : strContains raw.stderr "ERROR" = true <;>
      simp [h, he]

/-! ## Claim C10 — grompp reclassification frame -/

/-- C10 (confirmed): the grompp output reclassification only rewrites the
return code, and only from zero to 1 when the `"ERROR"` marker occurs in
stderr; stdout, stderr and the output-file map are untouched, an already
nonzero return code is returned unchanged, and the reclassified result is
successful only if the raw result was. -/
theorem classify_frame (r : GMXResult) :
    classify_grompp_output r =
      { r with returncode :=
          if r.returncode = 0 ∧ strContains r.stderr "ERROR" = true then 1
          else r.returncode } ∧
    (classify_grompp_output r).success ≤ r.success := by
  obtain ⟨rc, so, se, of⟩ := r
  unfold classify_grompp_output GMXResult.success
  by_cases h : rc = 0 <;>
    by_cases he : strContains se "ERROR" = true <;>
      simp [h, he]

/-! ## Claim C5 — timeout handling -/

/-- C5 (counterexample): a blocking `_run` invocation whose child process
does not exit within the timeout neither kills the process nor returns a
failure result: the `subprocess.TimeoutExpired` exception propagates to the
caller, contradicting the claim that every blocking tool invocation kills
and returns a timeout-flavoured failure rather than raising. -/
theorem run_timeout_raises_cex :
    GROMACSRunner.run
        { exitsWithinTimeout := false, returncode := 0, stdout := "", stderr := "" }
        (some 30) =
      { result := .error "subprocess.TimeoutExpired", killedProcess := false } := by
  rfl

/-- C5 (corrected): only `wait_mdrun`, the waiter for the non-blocking
production job, handles a timeout by killing the process and returning a
returncode -1 failure dict without raising; the blocking runner `_run` lets
the timeout exception propagate to its caller and does not kill the child. -/
theorem timeout_handling (p : ProcBehavior) (t : Nat)
    (h : p.exitsWithinTimeout = false) :
    wait_mdrun (some p) (some t) =
      { result := { returncode := some (-1), success := none, stdout := none,
                    error := some "mdrun timed out and was killed" }
        killedProcess := true } ∧
    (GROMACSRunner.run p (some t)).result = .error "subprocess.TimeoutExpired" ∧
    (GROMACSRunner.run p (some t)).killedProcess = false := by
  unfold wait_mdrun GROMACSRunner.run
  simp [h, Option.isNone]

/-- C5 witness: the corrected behaviour at a concrete non-exiting process. -/
theorem timeout_handling_witness :
    (ProcBehavior.exitsWithinTimeout ⟨false, 0, "", ""⟩ = false) ∧
    (wait_mdrun (some ⟨false, 0, "", ""⟩) (some 30) =
      { result := { returncode := some (-1), success := none, stdout := none,
                    error := some "mdrun timed out and was killed" }
        killedProcess := true } ∧
    (GROMACSRunner.run ⟨false, 0, "", ""⟩ (some 30)).result =
      .error "subprocess.TimeoutExpired" ∧
    (GROMACSRunner.run ⟨false, 0, "", ""⟩ (some 30)).killedProcess = false) :=
  ⟨rfl, timeout_handling ⟨false, 0, "", ""⟩ 30 rfl⟩

/-! ## Monitor helper lemmas -/

theorem injectExpected_fields (s : SessionState) :
    (injectExpected s).inRegistry = s.inRegistry ∧
    (injectExpected s).runnerPresent = s.runnerPresent ∧
    (injectExpected s).mdrun_proc = s.mdrun_proc ∧
    (injectExpected s).disk = s.disk := by
  unfold injectExpected
  by_cases h : s.sim.hasKeyExpected <;> cases hc : s.cfg_nsteps <;> simp [h, hc]

theorem injectExpected_stable (s : SessionState) :
    injectExpected { injectExpected s with mdrun_proc := none } =
      { injectExpected s with mdrun_proc := none } := by
  unfold injectExpected
  by_cases h : s.sim.hasKeyExpected <;> cases hc : s.cfg_nsteps <;> simp [h, hc]

theorem inferFromCandidates_finished (started : Int) (n : Nat) (disk : Disk)
    (cs : List String)
    (hal : cs.all (eligNoFatal started disk) = true)
    (hany : cs.any (stepHit started n disk) = true) :
    inferFromCandidates started (some n) disk cs = some (.finished, "step_reached") := by
  induction cs with
  | nil => simp at hany
  | cons p rest ih =>
    rw [List.all_cons, Bool.and_eq_true] at hal
    obtain ⟨h1, h2⟩ := hal
    rw [List.any_cons, Bool.or_eq_true] at hany
    unfold inferFromCandidates
    cases hl : lookupLog disk p with
    | none =>
      have : stepHit started n disk p = false := by unfold stepHit; rw [hl]
      rcases hany with hany | hany
      · rw [this] at hany; exact absurd hany (by simp)
      · exact ih h2 hany
    | some lg =>
      have h1' : (staleSkip started lg || !(fatalIn lg)) = true := by
        have := h1; unfold eligNoFatal at this; rw [hl] at this; exact this
      have hsh : stepHit started n disk p = (!(staleSkip started lg) && stepReached (some n) lg) := by
        unfold stepHit; rw [hl]
      dsimp only
      by_cases hss : staleSkip started lg = true
      · rw [if_pos hss]
        rcases hany with hany | hany
        · rw [hsh, hss] at hany; exact absurd hany (by simp)
        · exact ih h2 hany
      · rw [if_neg hss]
        have hssf : staleSkip started lg = false := by
          cases hq : staleSkip started lg
          · rfl
          · exact absurd hq hss
        have hnf : fatalIn lg = false := by
          rw [hssf] at h1'
          cases hq : fatalIn lg
          · rfl
          · rw [hq] at h1'; exact absurd h1' (by simp)
        rw [hnf]
        simp only [Bool.false_eq_true, if_false]
        by_cases hsr : stepReached (some n) lg = true
        · rw [if_pos hsr]
        · rw [if_neg hsr]
          rcases hany with hany | hany
          · rw [hsh, hssf] at hany
            simp only [Bool.not_false, Bool.true_and] at hany
            exact absurd hany hsr
          · exact ih h2 hany

theorem inferFromCandidates_no_stale_failed (started : Int) (expected : Option Nat)
    (disk : Disk) (cs : List String)
    (hpos : started > 0)
    (hst : cs.all (fatalOnlyStale started disk) = true) :
    (inferFromCandidates started expected disk cs).map Prod.fst ≠ some .failed := by
  induction cs with
  | nil => simp [inferFromCandidates]
  | cons p rest ih =>
    rw [List.all_cons, Bool.and_eq_true] at hst
    obtain ⟨h1, h2⟩ := hst
    unfold inferFromCandidates
    cases hl : lookupLog disk p with
    | none => exact ih h2
    | some lg =>
      dsimp only
      by_cases hss : staleSkip started lg = true
      · rw [if_pos hss]; exact ih h2
      · rw [if_neg hss]
        have hssf : staleSkip started lg = false := by
          cases hq : staleSkip started lg
          · rfl
          · exact absurd hq hss
        have h1' : (!(fatalIn lg) || decide (lg.mtime < started)) = true := by
          have := h1; unfold fatalOnlyStale at this; rw [hl] at this; exact this
        have hmt : decide (lg.mtime < started) = false := by
          unfold staleSkip at hssf
          rw [decide_eq_true hpos, Bool.true_and] at hssf
          exact hssf
        have hnf : fatalIn lg = false := by
          rw [hmt, Bool.or_false] at h1'
          cases hq : fatalIn lg
          · rfl
          · rw [hq] at h1'; exact absurd h1' (by simp)
        rw [hnf]
        simp only [Bool.false_eq_true, if_false]
        by_cases hsr : stepReached expected lg = true
        · rw [if_pos hsr]; simp
        · rw [if_neg hsr]; exact ih h2

theorem status_query_of_inferred (s : SessionState) (st : Status) (d : String)
    (hreg : s.inRegistry = true) (hrun : s.runnerPresent = true)
    (hinf : infer_terminal_status_from_outputs (injectExpected s).sim s.disk = some (st, d)) :
    get_simulation_status s =
      ({ running := false, status := st, detected_by := some d,
         pid := (injectExpected s).mdrun_proc.map Proc.pid, exit_code := none },
       { injectExpected s with mdrun_proc := none }) := by
  obtain ⟨f1, f2, f3, f4⟩ := injectExpected_fields s
  unfold get_simulation_status
  dsimp only
  rw [hreg, hrun]
  simp only [Bool.not_true, Bool.false_eq_true, if_false, if_true, f4, hinf]

theorem status_query_of_inferred_post (s : SessionState) (st : Status) (d : String)
    (hreg : s.inRegistry = true) (hrun : s.runnerPresent = true)
    (hinf : infer_terminal_status_from_outputs (injectExpected s).sim s.disk = some (st, d)) :
    (get_simulation_status { injectExpected s with mdrun_proc := none }).1.status = st ∧
    (get_simulation_status { injectExpected s with mdrun_proc := none }).1.running = false := by
  obtain ⟨f1, f2, f3, f4⟩ := injectExpected_fields s
  unfold get_simulation_status
  dsimp only
  rw [injectExpected_stable s]
  dsimp only
  rw [f1, f2, hreg, hrun]
  simp only [Bool.not_true, Bool.false_eq_true, if_false, if_true, f4, hinf]
  exact ⟨trivial, trivial⟩

/-! ## Claim C2 — terminal-status monotonicity -/

/-- C2 (counterexample): a status query on a session whose process exited
with code 1 and whose disk carries no log reports `failed`; the immediately
following query on the state that query leaves behind reports `standby`,
with no new launch in between — the claimed monotonicity of reported
terminal statuses fails. -/
theorem rc_terminal_then_standby_cex :
    (get_simulation_status c2CexState).1.status = .failed ∧
    (get_simulation_status c2CexState).1.running = false ∧
    (get_simulation_status (get_simulation_status c2CexState).2).1.status = .standby := by
  decide

/-- C2 (corrected): a terminal status that was inferred from on-disk outputs
(step completion or fatal log marker) is stable: with the registry entry,
runner, and disk unchanged, the next query reports the same terminal status
again. Only exit-code-derived terminal reports can be followed by
`standby`, because the query clears the process handle and a later query
finds no evidence. -/
theorem inferred_terminal_status_stable (s : SessionState) (st : Status) (d : String)
    (hreg : s.inRegistry = true) (hrun : s.runnerPresent = true)
    (hinf : infer_terminal_status_from_outputs (injectExpected s).sim s.disk = some (st, d)) :
    (get_simulation_status s).1.status = st ∧
    (get_simulation_status s).1.running = false ∧
    (get_simulation_status (get_simulation_status s).2).1.status = st ∧
    (get_simulation_status (get_simulation_status s).2).1.running = false := by
  have key := status_query_of_inferred s st d hreg hrun hinf
  have key2 := status_query_of_inferred_post s st d hreg hrun hinf
  have kpost : (get_simulation_status s).2 = { injectExpected s with mdrun_proc := none } := by
    rw [key]
  refine ⟨?_, ?_, ?_, ?_⟩
  · rw [key]
  · rw [key]
  · rw [kpost]; exact key2.1
  · rw [kpost]; exact key2.2

/-- C2 witness: the stable-terminal behaviour at a concrete session whose
log carries a fatal marker. -/
theorem inferred_terminal_status_stable_witness :
    c2WitnessState.inRegistry = true ∧ c2WitnessState.runnerPresent = true ∧
    infer_terminal_status_from_outputs (injectExpected c2WitnessState).sim
      c2WitnessState.disk = some (.failed, "log_error") ∧
    ((get_simulation_status c2WitnessState).1.status = .failed ∧
     (get_simulation_status c2WitnessState).1.running = false ∧
     (get_simulation_status (get_simulation_status c2WitnessState).2).1.status = .failed ∧
     (get_simulation_status (get_simulation_status c2WitnessState).2).1.running = false) :=
  ⟨rfl, rfl, by decide,
   inferred_terminal_status_stable c2WitnessState .failed "log_error" rfl rfl (by decide)⟩

/-! ## Claim C3 — step-based completion precedence -/

/-- C3 (counterexample): with a live job handle, expected total 100, and a
fresh log whose parsed step counter has reached 100 but whose tail also
holds a fatal-error marker, the query reports `failed`, not `finished`: the
fatal check runs before the step check within each candidate log. -/
theorem step_reached_with_fatal_reports_failed_cex :
    c3CexState.mdrun_proc = some { pid := 7, poll := none } ∧
    (injectExpected c3CexState).sim.expectedVal = some 100 ∧
    lookupLog c3CexState.disk "simulation/md.log" =
      some { mtime := 10, readable := true,
             tailText := "step 100\nFatal error: water molecule could not be settled",
             parsedStep := some 100 } ∧
    (get_simulation_status c3CexState).1 =
      { running := false, status := .failed, detected_by := some "log_error",
        pid := some 7 } := by
  decide

/-- C3 (corrected): with a live job handle, a configured expected total, a
candidate log whose parsed step counter has reached that total, and no
fatal-error marker in any eligible candidate log, the reported status is
`finished` with `running = false`, even while the OS-level process is still
alive. -/
theorem step_completion_precedence (s : SessionState) (pr : Proc) (n : Nat)
    (hreg : s.inRegistry = true) (hrun : s.runnerPresent = true)
    (hproc : s.mdrun_proc = some pr) (halive : pr.poll = none)
    (hexp : (injectExpected s).sim.expectedVal = some n)
    (hal : (logCandidates (injectExpected s).sim).all
        (eligNoFatal (injectExpected s).sim.started_at s.disk) = true)
    (hany : (logCandidates (injectExpected s).sim).any
        (stepHit (injectExpected s).sim.started_at n s.disk) = true) :
    (get_simulation_status s).1.status = .finished ∧
    (get_simulation_status s).1.running = false := by
  have hinf : infer_terminal_status_from_outputs (injectExpected s).sim s.disk =
      some (.finished, "step_reached") := by
    unfold infer_terminal_status_from_outputs
    rw [hexp]
    exact inferFromCandidates_finished _ n s.disk _ hal hany
  have key := status_query_of_inferred s .finished "step_reached" hreg hrun hinf
  rw [key]
  exact ⟨rfl, rfl⟩

/-- C3 witness: the corrected behaviour at a concrete session with a live
process and a clean log that reached the expected step count. -/
theorem step_completion_precedence_witness :
    c3WitnessState.inRegistry = true ∧ c3WitnessState.runnerPresent = true ∧
    c3WitnessState.mdrun_proc = some { pid := 3, poll := none } ∧
    (injectExpected c3WitnessState).sim.expectedVal = some 5 ∧
    (logCandidates (injectExpected c3WitnessState).sim).all
      (eligNoFatal (injectExpected c3WitnessState).sim.started_at c3WitnessState.disk) = true ∧
    (logCandidates (injectExpected c3WitnessState).sim).any
      (stepHit (injectExpected c3WitnessState).sim.started_at 5 c3WitnessState.disk) = true ∧
    ((get_simulation_status c3WitnessState).1.status = .finished ∧
     (get_simulation_status c3WitnessState).1.running = false) :=
  ⟨rfl, rfl, rfl, by decide, by decide, by decide,
   step_completion_precedence c3WitnessState { pid := 3, poll := none } 5 rfl rfl rfl rfl
     (by decide) (by decide) (by decide)⟩

/-! ## Claim C6 — stale-log immunity -/

/-- C6 (confirmed): when the launch timestamp is recorded (positive) and
every candidate log carrying a fatal marker was modified strictly before
it, the output inference never reports `failed`: a stale fatal marker
cannot cause a failed report. -/
theorem stale_log_immunity (sim : SimMeta) (disk : Disk)
    (hpos : sim.started_at > 0)
    (hst : (logCandidates sim).all (fatalOnlyStale sim.started_at disk) = true) :
    (infer_terminal_status_from_outputs sim disk).map Prod.fst ≠ some .failed := by
  unfold infer_terminal_status_from_outputs
  exact inferFromCandidates_no_stale_failed sim.started_at sim.expectedVal disk
    (logCandidates sim) hpos hst

/-- C6 witness: a concrete session whose only log holds a fatal marker but
predates the launch timestamp is not reported failed. -/
theorem stale_log_immunity_witness :
    ((1 : Int) > 0) ∧
    (logCandidates
        { hasKeyExpected := true, expected_nsteps := some 500, started_at := 1,
          output_pfx := none }).all
      (fatalOnlyStale 1
        [("simulation/md.log",
          { mtime := 0, readable := true, tailText := "Fatal error: boom",
            parsedStep := some 3 })]) = true ∧
    (infer_terminal_status_from_outputs
        { hasKeyExpected := true, expected_nsteps := some 500, started_at := 1,
          output_pfx := none }
        [("simulation/md.log",
          { mtime := 0, readable := true, tailText := "Fatal error: boom",
            parsedStep := some 3 })]).map Prod.fst ≠ some .failed :=
  ⟨by decide, by decide,
   stale_log_immunity
     { hasKeyExpected := true, expected_nsteps := some 500, started_at := 1,
       output_pfx := none }
     [("simulation/md.log",
       { mtime := 0, readable := true, tailText := "Fatal error: boom",
         parsedStep := some 3 })]
     (by decide) (by decide)⟩

/-! ## Claim C9 — graceful degradation of the status query -/

/-- C9 (counterexample): a session with a live process handle but no log
file on disk — a "missing log file" in the claim's enumeration — is
reported `running` with `running = true`, not standby/unknown with
`running = false`. -/
theorem missing_log_live_proc_reports_running_cex :
    c9CexState.disk = [] ∧
    (get_simulation_status c9CexState).1 =
      { running := true, status := .running, pid := some 9 } := by
  decide

/-- C9 (corrected): the status query is total (never raises in the model)
and degrades to `standby` with `running = false` exactly when it has no
process evidence: the session is absent from the registry, the runner
attribute is missing, or no process handle exists and the on-disk
inference yields nothing — whatever the state of the logs; a live or
exited process handle still determines a non-standby status. -/
theorem status_no_evidence_standby (s : SessionState)
    (h : s.inRegistry = false ∨ s.runnerPresent = false ∨
         (s.mdrun_proc = none ∧
          infer_terminal_status_from_outputs (injectExpected s).sim s.disk = none)) :
    (get_simulation_status s).1 = { running := false, status := .standby } := by
  obtain ⟨f1, f2, f3, f4⟩ := injectExpected_fields s
  unfold get_simulation_status
  dsimp only
  rcases h with h | h | ⟨hp, hi⟩
  · rw [h]; rfl
  · cases hr : s.inRegistry
    · rfl
    · rw [h]; rfl
  · cases hr : s.inRegistry
    · rfl
    · cases hrun : s.runnerPresent
      · rfl
      · rw [f4, hi, f3, hp]; rfl

/-- C9 witness: the corrected degradation at a session id absent from the
registry. -/
theorem status_no_evidence_standby_witness :
    (c9WitnessState.inRegistry = false ∨ c9WitnessState.runnerPresent = false ∨
     (c9WitnessState.mdrun_proc = none ∧
      infer_terminal_status_from_outputs (injectExpected c9WitnessState).sim
        c9WitnessState.disk = none)) ∧
    (get_simulation_status c9WitnessState).1 = { running := false, status := .standby } :=
  ⟨Or.inl rfl, status_no_evidence_standby c9WitnessState (Or.inl rfl)⟩

/-! ## Claim C1 — archive-on-rerun -/

/-- C1 (counterexample): after two consecutive successful solvated runs
with unchanged input, none of the four first-run solvation-branch
artifacts exists in the archive area — `_archive_existing` is a no-op
("Archiving disabled by request"), so nothing is ever moved aside. -/
theorem solvated_rerun_archive_lacks_first_run_artifacts_cex :
    solvatedRun1.result = .ok ∧ solvatedRun2.result = .ok ∧
    fsExists solvatedRun2.fs "archive/x_box.gro" = false ∧
    fsExists solvatedRun2.fs "archive/x_solvated.gro" = false ∧
    fsExists solvatedRun2.fs "archive/x_ionized.gro" = false ∧
    fsExists solvatedRun2.fs "archive/ions.tpr" = false := by
  decide

/-- C1 (corrected): on a rerun, prior versions of the to-be-regenerated
artifacts are deleted (best-effort), not archived: after the second
solvated run the four solvation-branch artifacts are regenerated (they
carry the second run's content version), and the archive area is empty
after both runs. -/
theorem solvated_rerun_deletes_not_archives :
    solvatedRun2.result = .ok ∧
    fsVersion solvatedRun2.fs "x_box.gro" = some 2 ∧
    fsVersion solvatedRun2.fs "x_solvated.gro" = some 2 ∧
    fsVersion solvatedRun2.fs "x_ionized.gro" = some 2 ∧
    fsVersion solvatedRun2.fs "ions.tpr" = some 2 ∧
    solvatedRun1.fs.all (fun e => !(leadsWith "archive/".data e.1.data)) = true ∧
    solvatedRun2.fs.all (fun e => !(leadsWith "archive/".data e.1.data)) = true := by
  decide

/-! ## Claim C7 — retry policy of topology generation -/

theorem stepA_trace (cfg : PipeConfig) (fs : FS) (tools : ToolBehavior) (v : Nat)
    (sg : String) :
    (stepA cfg fs tools v sg).trace =
      if retryCond cfg tools.pdb2gmx1 = true
      then [.pdb2gmx cfg.forcefield, .pdb2gmx fallbackFF]
      else [.pdb2gmx cfg.forcefield] := by
  unfold stepA
  by_cases h : retryCond cfg tools.pdb2gmx1 = true
  · rw [if_pos h, if_pos h]
    dsimp only
    split <;> rfl
  · rw [if_neg h, if_neg h]
    split <;> rfl

theorem stepA_ok_of_retry_success (cfg : PipeConfig) (fs : FS) (tools : ToolBehavior)
    (v : Nat) (sg : String)
    (hr : retryCond cfg tools.pdb2gmx1 = true)
    (h2 : tools.pdb2gmx2.returncode = 0) :
    (stepA cfg fs tools v sg).ok = true ∧
    (stepA cfg fs tools v sg).cfg = { cfg with forcefield := fallbackFF } := by
  unfold stepA
  rw [if_pos hr, if_pos (by rw [h2]; rfl : (tools.pdb2gmx2.returncode == 0) = true)]
  exact ⟨rfl, rfl⟩

theorem stepBCD_cfg_forcefield (cfg : PipeConfig) (fs : FS) (tools : ToolBehavior)
    (v : Nat) (sg bg sv ig : String) :
    (stepBCD cfg fs tools v sg bg sv ig).cfg.forcefield = cfg.forcefield := by
  unfold stepBCD stepCD
  repeat' split
  all_goals rfl

theorem stepBCD_trace_props (cfg : PipeConfig) (fs : FS) (tools : ToolBehavior)
    (v : Nat) (sg bg sv ig : String) :
    (stepBCD cfg fs tools v sg bg sv ig).trace.filter StageCall.isPdb2gmx = [] ∧
    (stepBCD cfg fs tools v sg bg sv ig).trace.Nodup ∧
    ((stepBCD cfg fs tools v sg bg sv ig).result ≠ .ok →
      StageCall.mdrun_launch ∉ (stepBCD cfg fs tools v sg bg sv ig).trace) := by
  unfold stepBCD stepCD
  repeat' split
  all_goals refine ⟨?_, ?_, ?_⟩
  all_goals dsimp only
  all_goals decide

/-- C7 (confirmed): the topology-generation stage is attempted twice, with
the default fallback force field on the second attempt, iff the first
attempt failed with the residue-not-found diagnostic and the configured
force field is not the default — and once otherwise; on fallback success
the substitution is recorded in the configuration; every stage other than
topology generation occurs at most once in the invocation trace, and no
production launch happens once any stage has failed. -/
theorem pdb2gmx_retry_policy (cfg : PipeConfig) (fs : FS) (tools : ToolBehavior)
    (v : Nat) (ic : String)
    (hic : pipelineInput cfg fs v = some ic) :
    ((start_simulation cfg fs tools v).trace.filter StageCall.isPdb2gmx =
      if retryCond cfg tools.pdb2gmx1 = true
      then [.pdb2gmx cfg.forcefield, .pdb2gmx fallbackFF]
      else [.pdb2gmx cfg.forcefield]) ∧
    (retryCond cfg tools.pdb2gmx1 = true → tools.pdb2gmx2.returncode = 0 →
      (start_simulation cfg fs tools v).cfg.forcefield = fallbackFF) ∧
    ((start_simulation cfg fs tools v).trace.filter (fun c => !(c.isPdb2gmx))).Nodup ∧
    ((start_simulation cfg fs tools v).result ≠ .ok →
      (start_simulation cfg fs tools v).trace.count .mdrun_launch = 0) := by
  have hic' : find_source_coord (topLevelNames (fsWrite fs "md.mdp" v)) cfg.coordinates
      = some ic := hic
  unfold start_simulation
  dsimp only
  rw [hic']
  dsimp only
  set a := stepA cfg (fsWrite fs "md.mdp" v) tools v (pathStem ic ++ "_system.gro") with ha
  set rest := stepBCD a.cfg a.fs tools v (pathStem ic ++ "_system.gro")
      (pathStem ic ++ "_box.gro") (pathStem ic ++ "_solvated.gro")
      (pathStem ic ++ "_ionized.gro") with hrest
  have hat : a.trace =
      if retryCond cfg tools.pdb2gmx1 = true
      then [.pdb2gmx cfg.forcefield, .pdb2gmx fallbackFF]
      else [.pdb2gmx cfg.forcefield] := by
    rw [ha]; exact stepA_trace cfg (fsWrite fs "md.mdp" v) tools v (pathStem ic ++ "_system.gro")
  have hfa : a.trace.filter StageCall.isPdb2gmx = a.trace := by
    rw [hat]; split <;> rfl
  have hqa : a.trace.filter (fun c => !(c.isPdb2gmx)) = [] := by
    rw [hat]; split <;> rfl
  have hca : a.trace.count .mdrun_launch = 0 := by
    rw [hat]; split <;> rfl
  obtain ⟨hb1, hb2, hb3⟩ := stepBCD_trace_props a.cfg a.fs tools v
      (pathStem ic ++ "_system.gro") (pathStem ic ++ "_box.gro")
      (pathStem ic ++ "_solvated.gro") (pathStem ic ++ "_ionized.gro")
  rw [← hrest] at hb1 hb2 hb3
  have hbf := stepBCD_cfg_forcefield a.cfg a.fs tools v
      (pathStem ic ++ "_system.gro") (pathStem ic ++ "_box.gro")
      (pathStem ic ++ "_solvated.gro") (pathStem ic ++ "_ionized.gro")
  rw [← hrest] at hbf
  by_cases hok : a.ok = true
  · rw [if_pos hok]
    dsimp only
    refine ⟨?_, ?_, ?_, ?_⟩
    · rw [List.filter_append, hb1, List.append_nil, hfa, hat]
    · intro hr h2
      have hA := stepA_ok_of_retry_success cfg (fsWrite fs "md.mdp" v) tools v
          (pathStem ic ++ "_system.gro") hr h2
      rw [← ha] at hA
      rw [hbf, hA.2]
    · rw [List.filter_append, hqa, List.nil_append]
      exact List.Nodup.filter _ hb2
    · intro hres
      rw [List.count_append, hca, List.count_eq_zero.mpr (hb3 hres)]
  · rw [if_neg hok]
    dsimp only
    refine ⟨?_, ?_, ?_, ?_⟩
    · rw [hfa, hat]
    · intro hr h2
      have hA := stepA_ok_of_retry_success cfg (fsWrite fs "md.mdp" v) tools v
          (pathStem ic ++ "_system.gro") hr h2
      rw [← ha] at hA
      exact absurd hA.1 hok
    · rw [hqa]; exact List.nodup_nil
    · intro _; exact hca

/-- C7 witness: the retry policy at a concrete run whose first pdb2gmx
attempt fails with the residue diagnostic under a non-default force
field. -/
theorem pdb2gmx_retry_policy_witness :
    pipelineInput c7Cfg c7Fs 1 = some "y.pdb" ∧
    (((start_simulation c7Cfg c7Fs c7Tools 1).trace.filter StageCall.isPdb2gmx =
       if retryCond c7Cfg c7Tools.pdb2gmx1 = true
       then [.pdb2gmx c7Cfg.forcefield, .pdb2gmx fallbackFF]
       else [.pdb2gmx c7Cfg.forcefield]) ∧
     (retryCond c7Cfg c7Tools.pdb2gmx1 = true → c7Tools.pdb2gmx2.returncode = 0 →
       (start_simulation c7Cfg c7Fs c7Tools 1).cfg.forcefield = fallbackFF) ∧
     ((start_simulation c7Cfg c7Fs c7Tools 1).trace.filter (fun c => !(c.isPdb2gmx))).Nodup ∧
     ((start_simulation c7Cfg c7Fs c7Tools 1).result ≠ .ok →
       (start_simulation c7Cfg c7Fs c7Tools 1).trace.count .mdrun_launch = 0)) :=
  ⟨by decide, pdb2gmx_retry_policy c7Cfg c7Fs c7Tools 1 "y.pdb" (by decide)⟩

/-! ## Claim C8 — authoritative input resolution -/

theorem recoverFromDerived_not_derived (files : List String) (n c : String)
    (h : recoverFromDerived files n = some c) : is_derived_coord c = false := by
  unfold recoverFromDerived at h
  split at h
  · exact absurd h (by simp)
  · dsimp only at h
    split_ifs at h with h1 h2
    all_goals first
      | (cases h; exact bool_not_true (bool_and_right h1))
      | (cases h; exact bool_not_true (bool_and_right h2))
      | exact absurd h (by simp)

theorem scanSourceCoord_not_derived (files : List String) (c : String)
    (h : scanSourceCoord files = some c) : is_derived_coord c = false := by
  unfold scanSourceCoord at h
  have hp := @List.find?_some String
    (fun f => coordExts.contains (strLower (pathSuffix f)) && !(is_derived_coord f))
    c (sortNames files) h
  exact bool_not_true (bool_and_right hp)

theorem find_source_coord_not_derived (files : List String) (preferred : String) :
    (find_source_coord files preferred).all (fun r => !(is_derived_coord r)) = true := by
  unfold find_source_coord
  dsimp only
  set pn := if (preferred == "") = true then "" else pathName preferred with hpn
  by_cases h1 : (pn != "" && files.contains pn && !(is_derived_coord pn)) = true
  · rw [if_pos h1]
    exact bool_and_right h1
  · rw [if_neg h1]
    by_cases h2 : (pn != "" && is_derived_coord pn) = true
    · rw [if_pos h2]
      cases hr : recoverFromDerived files pn with
      | none =>
        dsimp only
        cases hs : scanSourceCoord files with
        | none => rfl
        | some c =>
          have := scanSourceCoord_not_derived files c hs
          show (!(is_derived_coord c)) = true
          rw [this]
          rfl
      | some c =>
        dsimp only
        have := recoverFromDerived_not_derived files pn c hr
        show (!(is_derived_coord c)) = true
        rw [this]
        rfl
    · rw [if_neg h2]
      dsimp only
      cases hs : scanSourceCoord files with
      | none => rfl
      | some c =>
        have := scanSourceCoord_not_derived files c hs
        show (!(is_derived_coord c)) = true
        rw [this]
        rfl

/-- C8 (confirmed): resolving the authoritative input coordinate file never
returns a name matching the derived-suffix taxonomy (first conjunct, for
every directory and preference); and whenever the preferred name is a
derived coordinate, the original input stem's source file is recovered:
if the root's `.pdb` exists in the directory and is itself non-derived,
exactly that file is returned (second conjunct, over the candidate
`derivedRootPdb`), and otherwise, if the root's `.gro` exists and is
non-derived, that file is returned (third conjunct, over
`derivedRootGro`, guarded by `pdbCandTaken`). -/
theorem find_source_coord_spec (files : List String) (preferred : String) :
    (find_source_coord files preferred).all (fun r => !(is_derived_coord r)) = true ∧
    (derivedRootPdb (pathName preferred)).all (fun cand =>
       !(is_derived_coord (pathName preferred)) || !(files.contains cand) ||
       is_derived_coord cand ||
       (find_source_coord files preferred == some cand)) = true ∧
    (derivedRootGro (pathName preferred)).all (fun cand =>
       !(is_derived_coord (pathName preferred)) ||
       pdbCandTaken files (pathName preferred) ||
       !(files.contains cand) || is_derived_coord cand ||
       (find_source_coord files preferred == some cand)) = true := by
  refine ⟨find_source_coord_not_derived files preferred, ?_, ?_⟩
  unfold derivedRootPdb
  cases hf : derivedSuffixes.find? (fun sfx => strEndsWith (strLower (pathName preferred)) sfx) with
  | none => rfl
  | some sfx =>
    rw [Option.all_some]
    by_cases hder : is_derived_coord (pathName preferred) = true
    case neg =>
      have : is_derived_coord (pathName preferred) = false := by
        cases hq : is_derived_coord (pathName preferred)
        · rfl
        · exact absurd hq hder
      rw [this]
      rfl
    case pos =>
      by_cases hcon : files.contains (strDropRight (pathName preferred) sfx.data.length ++ ".pdb") = true
      case neg =>
        have : files.contains (strDropRight (pathName preferred) sfx.data.length ++ ".pdb") = false := by
          cases hq : files.contains (strDropRight (pathName preferred) sfx.data.length ++ ".pdb")
          · rfl
          · exact absurd hq hcon
        rw [this, hder]
        rfl
      case pos =>
        by_cases hcd : is_derived_coord (strDropRight (pathName preferred) sfx.data.length ++ ".pdb") = true
        case pos =>
          rw [hcd, hder, hcon]
          rfl
        case neg =>
          have hcdf : is_derived_coord (strDropRight (pathName preferred) sfx.data.length ++ ".pdb") = false := by
            cases hq : is_derived_coord (strDropRight (pathName preferred) sfx.data.length ++ ".pdb")
            · rfl
            · exact absurd hq hcd
          have hpne : (preferred == "") = false := by
            cases hq : preferred == ""
            · rfl
            · exfalso
              have hp : preferred = "" := by
                have := hq
                exact eq_of_beq this
              rw [hp] at hder
              exact absurd hder (by decide)
          have hpn_ne : (pathName preferred != "") = true := by
            cases hq : pathName preferred == ""
            · show (!(pathName preferred == "")) = true
              rw [hq]
              rfl
            · exfalso
              have hp : pathName preferred = "" := eq_of_beq hq
              rw [hp] at hder
              exact absurd hder (by decide)
          have heq : find_source_coord files preferred =
              some (strDropRight (pathName preferred) sfx.data.length ++ ".pdb") := by
            unfold find_source_coord
            dsimp only
            rw [hpne]
            simp only [Bool.false_eq_true, if_false]
            rw [hder]
            simp only [Bool.not_true, Bool.and_false, Bool.false_eq_true, if_false]
            rw [hpn_ne]
            simp only [Bool.true_and, if_true]
            unfold recoverFromDerived
            rw [hf]
            dsimp only
            rw [hcon, hcdf]
            rfl
          rw [heq, hder, hcon, hcdf]
          simp
  unfold derivedRootGro
  cases hf : derivedSuffixes.find? (fun sfx => strEndsWith (strLower (pathName preferred)) sfx) with
  | none => rfl
  | some sfx =>
    rw [Option.all_some]
    by_cases hder : is_derived_coord (pathName preferred) = true
    case neg =>
      have hderf : is_derived_coord (pathName preferred) = false := by
        cases hq : is_derived_coord (pathName preferred)
        · rfl
        · exact absurd hq hder
      rw [hderf]
      rfl
    case pos =>
      by_cases hpdb : pdbCandTaken files (pathName preferred) = true
      case pos =>
        rw [hder, hpdb]
        rfl
      case neg =>
        have hpdbf : pdbCandTaken files (pathName preferred) = false := by
          cases hq : pdbCandTaken files (pathName preferred)
          · rfl
          · exact absurd hq hpdb
        by_cases hcon : files.contains (strDropRight (pathName preferred) sfx.data.length ++ ".gro") = true
        case neg =>
          have hconf : files.contains (strDropRight (pathName preferred) sfx.data.length ++ ".gro") = false := by
            cases hq : files.contains (strDropRight (pathName preferred) sfx.data.length ++ ".gro")
            · rfl
            · exact absurd hq hcon
          rw [hder, hpdbf, hconf]
          rfl
        case pos =>
          by_cases hcd : is_derived_coord (strDropRight (pathName preferred) sfx.data.length ++ ".gro") = true
          case pos =>
            rw [hder, hpdbf, hcon, hcd]
            rfl
          case neg =>
            have hcdf : is_derived_coord (strDropRight (pathName preferred) sfx.data.length ++ ".gro") = false := by
              cases hq : is_derived_coord (strDropRight (pathName preferred) sfx.data.length ++ ".gro")
              · rfl
              · exact absurd hq hcd
            have hpne : (preferred == "") = false := by
              cases hq : preferred == ""
              · rfl
              · exfalso
                have hp : preferred = "" := eq_of_beq hq
                rw [hp] at hder
                exact absurd hder (by decide)
            have hpn_ne : (pathName preferred != "") = true := by
              cases hq : pathName preferred == ""
              · show (!(pathName preferred == "")) = true
                rw [hq]
                rfl
              · exfalso
                have hp : pathName preferred = "" := eq_of_beq hq
                rw [hp] at hder
                exact absurd hder (by decide)
            have hpdbf2 : (files.contains (strDropRight (pathName preferred) sfx.data.length ++ ".pdb") &&
                !(is_derived_coord (strDropRight (pathName preferred) sfx.data.length ++ ".pdb"))) = false := by
              have hv := hpdbf
              unfold pdbCandTaken derivedRootPdb at hv
              rw [hf] at hv
              exact hv
            have heq : find_source_coord files preferred =
                some (strDropRight (pathName preferred) sfx.data.length ++ ".gro") := by
              unfold find_source_coord
              dsimp only
              rw [hpne]
              simp only [Bool.false_eq_true, if_false]
              rw [hder]
              simp only [Bool.not_true, Bool.and_false, Bool.false_eq_true, if_false]
              rw [hpn_ne]
              simp only [Bool.true_and, if_true]
              unfold recoverFromDerived
              rw [hf]
              dsimp only
              rw [hpdbf2]
              simp only [Bool.false_eq_true, if_false]
              rw [hcon, hcdf]
              rfl
            rw [heq, hder, hpdbf, hcon, hcdf]
            simp
